import Mathlib

/-!
Verification of the litellm-clawrouter routing core and intercepting proxy.

The development shallowly embeds the two source modules:

* `src/router.js` — the 14-dimension weighted classifier (`scoreDimensions`,
  `route`) and the cost estimator (`estimateCost`, `estimateSavings`).
* the proxy module (`startProxy`'s per-request body handler and the
  upstream-error responder).

Modelling conventions:

* JavaScript floating-point numbers are modelled as rationals (`ℚ`); every
  constant in the source is a short decimal and is transcribed exactly.
* The regular-expression layer of `PATTERNS` is abstracted: a prompt is
  represented by its observable feature vector (`PromptFeatures`) — for each
  patterned dimension the number of detection patterns of that dimension that
  match the prompt, plus the whitespace-split token count and the count of
  question marks.  Everything downstream of the pattern tests (scores,
  weights, tier selection, override rule) is transcribed from the source.
* `Math.exp` is not computable over ℚ; the `confidence` field is therefore
  kept symbolic (`Confidence.sigmoid w` denotes `1 / (1 + e^(-10*(w-0.5)))`
  exactly as line 147 of `router.js` computes it; `Confidence.const q`
  denotes the literal confidence `q` set by the override rule).
-/

namespace ClawRouter

/-- The 14 scoring dimensions of `router.js` (`WEIGHTS`, lines 17-32). -/
inductive Dim where
  | reasoning
  | code
  | simple
  | multiStep
  | technical
  | tokenCount
  | creative
  | questionComplexity
  | constraints
  | imperative
  | outputFormat
  | domain
  | reference
  | negation
deriving DecidableEq, Repr

/-- The four routing tiers. -/
inductive Tier where
  | SIMPLE
  | MEDIUM
  | COMPLEX
  | REASONING
deriving DecidableEq, Repr

/-- A tier-to-model map.  JavaScript objects may lack keys, and a missing key
reads as `undefined`; this is modelled by `Option`. -/
def TierModelMap : Type := Tier → Option String

/-- `DEFAULT_TIER_MODELS` (`router.js`, lines 9-14). -/
def DEFAULT_TIER_MODELS : TierModelMap := fun t =>
  match t with
  | Tier.SIMPLE => some ("gemini/gemini-2.0-flash")
  | Tier.MEDIUM => some ("deepseek/deepseek-chat")
  | Tier.COMPLEX => some ("anthropic/claude-sonnet-4")
  | Tier.REASONING => some ("deepseek/deepseek-reasoner")

/-- The scoring weight table `WEIGHTS` (`router.js`, lines 17-32), in source
order.  `0.20 = 1/5`, `0.18 = 9/50`, `0.10 = 1/10`, `0.08 = 2/25`,
`0.05 = 1/20`, `0.04 = 1/25`, `0.03 = 3/100`, `0.02 = 1/50`, `0.01 = 1/100`. -/
def WEIGHTS : List (Dim × ℚ) :=
  [(Dim.reasoning, 1/5), (Dim.code, 9/50), (Dim.simple, 1/10),
   (Dim.multiStep, 1/10), (Dim.technical, 1/10), (Dim.tokenCount, 2/25),
   (Dim.creative, 1/20), (Dim.questionComplexity, 1/25),
   (Dim.constraints, 1/25), (Dim.imperative, 1/25), (Dim.outputFormat, 3/100),
   (Dim.domain, 1/50), (Dim.reference, 1/100), (Dim.negation, 1/100)]

/-- The pattern table `PATTERNS` (`router.js`, lines 35-98), abstracted to the
number of detection patterns per dimension, in source (insertion) order.
`tokenCount` and `questionComplexity` have no pattern list; they are scored
separately (lines 117-128). -/
def PATTERNS : List (Dim × Nat) :=
  [(Dim.reasoning, 5), (Dim.code, 7), (Dim.simple, 4), (Dim.multiStep, 3),
   (Dim.technical, 4), (Dim.creative, 2), (Dim.constraints, 3),
   (Dim.imperative, 2), (Dim.outputFormat, 2), (Dim.domain, 2),
   (Dim.reference, 2), (Dim.negation, 2)]

/-- The observable features of a prompt string, abstracting the regular
expression layer: for each patterned dimension, how many of that dimension's
detection patterns match the prompt (each pattern contributes at most one
match, so in reality the count is bounded by the dimension's pattern count);
`tokenCount` is `prompt.split(/\s+/).length` and `questionMarks` the number
of question-mark characters in the prompt. -/
structure PromptFeatures where
  reasoningMatches : Nat
  codeMatches : Nat
  simpleMatches : Nat
  multiStepMatches : Nat
  technicalMatches : Nat
  creativeMatches : Nat
  constraintsMatches : Nat
  imperativeMatches : Nat
  outputFormatMatches : Nat
  domainMatches : Nat
  referenceMatches : Nat
  negationMatches : Nat
  tokenCount : Nat
  questionMarks : Nat
deriving DecidableEq, Repr

/-- Number of detection patterns of dimension `d` matching the prompt. -/
def matchCount (p : PromptFeatures) : Dim → Nat
  | Dim.reasoning => p.reasoningMatches
  | Dim.code => p.codeMatches
  | Dim.simple => p.simpleMatches
  | Dim.multiStep => p.multiStepMatches
  | Dim.technical => p.technicalMatches
  | Dim.creative => p.creativeMatches
  | Dim.constraints => p.constraintsMatches
  | Dim.imperative => p.imperativeMatches
  | Dim.outputFormat => p.outputFormatMatches
  | Dim.domain => p.domainMatches
  | Dim.reference => p.referenceMatches
  | Dim.negation => p.negationMatches
  | Dim.tokenCount => 0
  | Dim.questionComplexity => 0

/-- Pattern-based dimension score: `Math.min(matches / patterns.length, 1.0)`
(`router.js`, line 114). -/
def patternScore (m total : Nat) : ℚ :=
  min ((m : ℚ) / (total : ℚ)) 1

/-- Token-count score (`router.js`, lines 118-124): `0.2` below 50 tokens,
`0.9` above 500, else `0.5 + (tokenCount - 50) / 900`. -/
def tokenCountScore (n : Nat) : ℚ :=
  if n < 50 then 1/5
  else if 500 < n then 9/10
  else 1/2 + ((n : ℚ) - 50) / 900

/-- Question-complexity score (`router.js`, lines 127-128):
`Math.min(questionMarks / 3, 1.0)`. -/
def questionComplexityScore (q : Nat) : ℚ :=
  min ((q : ℚ) / 3) 1

/-- `scoreDimensions` (`router.js`, lines 103-131): the pattern loop fills one
entry per `PATTERNS` key in insertion order, then `tokenCount` and
`questionComplexity` are appended, giving a 14-key score mapping. -/
def scoreDimensions (p : PromptFeatures) : List (Dim × ℚ) :=
  (PATTERNS.map fun dt => (dt.1, patternScore (matchCount p dt.1) dt.2))
    ++ [(Dim.tokenCount, tokenCountScore p.tokenCount),
        (Dim.questionComplexity, questionComplexityScore p.questionMarks)]

/-- Reading a score from the mapping; a missing key reads as `0`, mirroring
`scores[dim] || 0` (`router.js`, line 143). -/
def scoreOf (scores : List (Dim × ℚ)) (d : Dim) : ℚ :=
  (scores.lookup d).getD 0

/-- The weighted sum loop (`router.js`, lines 141-144). -/
def weightedSumOf (scores : List (Dim × ℚ)) : ℚ :=
  WEIGHTS.foldl (fun acc dw => acc + scoreOf scores dw.1 * dw.2) 0

/-- The `confidence` field of a decision.  `Confidence.const q` is a literal
confidence set by a rule (the override sets `0.97`, line 159);
`Confidence.sigmoid w` denotes the logistic calibration
`1 / (1 + Math.exp(-10 * (w - 0.5)))` of line 147, kept symbolic because
`Math.exp` has no exact rational counterpart. -/
inductive Confidence where
  | const (value : ℚ)
  | sigmoid (weightedSum : ℚ)
deriving DecidableEq, Repr

/-- The decision `method`. -/
inductive Method where
  | rules
  | weighted
deriving DecidableEq, Repr

/-- A routing decision (`router.js`, lines 156-162 and 182-189).  The
override-rule decision carries no `weightedScore` field; this presence or
absence is modelled by `Option`.  `model` is `Option String` because a
tier-model lookup in a caller-supplied map can read `undefined`. -/
structure Decision where
  tier : Tier
  model : Option String
  confidence : Confidence
  weightedScore : Option ℚ
  method : Method
  scores : List (Dim × ℚ)
deriving DecidableEq, Repr

/-- The `options` argument of `route`; `tierModels` is optional and
`options.tierModels || DEFAULT_TIER_MODELS` (line 137) falls back to the
default map when it is absent. -/
structure RouteOptions where
  tierModels : Option TierModelMap

/-- `route` (`router.js`, lines 136-190), transcribed clause by clause.  The
named intermediates `hasStrongCode` and `hasStrongImperative` of lines
169-170 are inlined into the conditions that use them. -/
def route (p : PromptFeatures) (opts : RouteOptions) : Decision :=
  let tierModels := opts.tierModels.getD DEFAULT_TIER_MODELS
  let scores := scoreDimensions p
  let weightedSum := weightedSumOf scores
  let reasoningMatches := p.reasoningMatches
  if 2 ≤ reasoningMatches then
    { tier := Tier.REASONING
      model := tierModels Tier.REASONING
      confidence := Confidence.const (97/100)
      weightedScore := none
      method := Method.rules
      scores := scores }
  else
    let tier :=
      if weightedSum < 1/5
          ∧ ¬(scoreOf scores Dim.code > 3/10 ∨ scoreOf scores Dim.technical > 3/10)
          ∧ ¬(scoreOf scores Dim.imperative > 3/10
              ∧ (scoreOf scores Dim.code > 1/10 ∨ scoreOf scores Dim.technical > 1/10)) then
        Tier.SIMPLE
      else if scoreOf scores Dim.reasoning > 1/2 ∨ 1 ≤ reasoningMatches then
        Tier.REASONING
      else if weightedSum < 2/5
          ∧ ¬(scoreOf scores Dim.imperative > 3/10
              ∧ (scoreOf scores Dim.code > 1/10 ∨ scoreOf scores Dim.technical > 1/10)) then
        Tier.MEDIUM
      else
        Tier.COMPLEX
    { tier := tier
      model := tierModels tier
      confidence := Confidence.sigmoid weightedSum
      weightedScore := some weightedSum
      method := Method.weighted
      scores := scores }

/-- `MODEL_COSTS` (`router.js`, lines 195-203): per-model
(input, output) dollar rates per million tokens. -/
def MODEL_COSTS : List (String × (ℚ × ℚ)) :=
  [("gemini/gemini-2.0-flash", (1/10, 2/5)),
   ("deepseek/deepseek-chat", (7/50, 7/25)),
   ("anthropic/claude-sonnet-4", (3, 15)),
   ("deepseek/deepseek-reasoner", (11/20, 219/100)),
   ("openai/gpt-4o-mini", (3/20, 3/5)),
   ("openai/gpt-4o", (5/2, 10)),
   ("anthropic/claude-opus-4", (15, 75))]

/-- `estimateCost` (`router.js`, lines 205-208); an unknown model falls back
to the conservative rate `{input: 1.00, output: 5.00}`. -/
def estimateCost (model : String) (inputTokens outputTokens : ℚ) : ℚ :=
  let costs := (MODEL_COSTS.lookup model).getD (1, 5)
  inputTokens / 1000000 * costs.1 + outputTokens / 1000000 * costs.2

/-- `estimateSavings` (`router.js`, lines 210-214). -/
def estimateSavings (routedModel baselineModel : String)
    (inputTokens outputTokens : ℚ) : ℚ :=
  let routedCost := estimateCost routedModel inputTokens outputTokens
  let baselineCost := estimateCost baselineModel inputTokens outputTokens
  if 0 < baselineCost then (baselineCost - routedCost) / baselineCost else 0

/-!
JSON values and the runtime's `JSON.parse` / `JSON.stringify`, which the
proxy calls on every completions request.  These are platform builtins, not
repository code, so the model covers the fragment the claims exercise:
objects (duplicate keys resolved by JavaScript object-assignment semantics:
first position, last value), arrays, strings with the standard escapes
(`\uXXXX` limited to non-surrogate code points), integer numbers (no
fraction/exponent forms), booleans and null.  Parse-error message texts are
engine specific and are abstracted to a fixed string.
-/

/-- A JSON value.  Numbers are restricted to integers (the bodies the claims
exercise contain no fractional numbers, whose double rounding has no exact
rational counterpart). -/
inductive Json where
  | null
  | bool (b : Bool)
  | num (n : Int)
  | str (s : String)
  | arr (elems : List Json)
  | obj (fields : List (String × Json))
deriving Repr

/-- Property read `payload.k`: on a non-object it is `undefined` (`none`). -/
def Json.getField : Json → String → Option Json
  | Json.obj fs, k => fs.lookup k
  | _, _ => none

/-- JavaScript object-key insertion: an existing key keeps its position and
takes the new value, a fresh key is appended. -/
def jsInsert : List (String × Json) → String → Json → List (String × Json)
  | [], k, v => [(k, v)]
  | (k', v') :: fs, k, v =>
    if k' = k then (k', v) :: fs else (k', v') :: jsInsert fs k v

/-- Property assignment `payload.k = v` (`proxy.js` line 76): updates an
object in place, and is a no-op on the serialization of anything else. -/
def Json.setField : Json → String → Json → Json
  | Json.obj fs, k, v => Json.obj (jsInsert fs k v)
  | j, _, _ => j

/-- Assigning `undefined` to a property makes `JSON.stringify` omit the key;
this serialization effect is modelled by removing the field. -/
def Json.removeField : Json → String → Json
  | Json.obj fs, k => Json.obj (fs.filter fun kv => kv.1 != k)
  | j, _ => j

/-- Lowercase hexadecimal digit, as produced by `JSON.stringify`. -/
def hexDigit (n : Nat) : Char :=
  if n < 10 then Char.ofNat (48 + n) else Char.ofNat (87 + n - 10)

/-- Escaping of one character inside a `JSON.stringify`d string. -/
def escapeStringChar (c : Char) : List Char :=
  if c = '"' then ['\\', '"']
  else if c = '\\' then ['\\', '\\']
  else if c = Char.ofNat 8 then ['\\', 'b']
  else if c = '\t' then ['\\', 't']
  else if c = '\n' then ['\\', 'n']
  else if c = Char.ofNat 12 then ['\\', 'f']
  else if c = '\r' then ['\\', 'r']
  else if c.toNat < 32 then
    ['\\', 'u', '0', '0', hexDigit (c.toNat / 16), hexDigit (c.toNat % 16)]
  else [c]

/-- String serialization of `JSON.stringify`. -/
def quoteStr (s : String) : String :=
  String.mk ('"' :: s.data.foldr (fun c acc => escapeStringChar c ++ acc) ['"'])

mutual

/-- `JSON.stringify` on the modelled fragment: no inserted whitespace,
object fields in insertion order. -/
def jsonStringify : Json → String
  | Json.null => "null"
  | Json.bool true => "true"
  | Json.bool false => "false"
  | Json.num n => toString n
  | Json.str s => quoteStr s
  | Json.arr xs => "[" ++ stringifyElems xs ++ "]"
  | Json.obj fs => "\x7b" ++ stringifyFields fs ++ "\x7d"

/-- Comma-separated serialization of array elements. -/
def stringifyElems : List Json → String
  | [] => ""
  | [x] => jsonStringify x
  | x :: y :: xs => jsonStringify x ++ "," ++ stringifyElems (y :: xs)

/-- Comma-separated serialization of object fields. -/
def stringifyFields : List (String × Json) → String
  | [] => ""
  | [(k, v)] => quoteStr k ++ ":" ++ jsonStringify v
  | (k, v) :: f :: fs => quoteStr k ++ ":" ++ jsonStringify v ++ "," ++ stringifyFields (f :: fs)

end

/-- JSON whitespace accepted between tokens by `JSON.parse`. -/
def isJsonWs (c : Char) : Bool :=
  c == ' ' || c == '\t' || c == '\n' || c == '\r'

/-- Skip leading JSON whitespace. -/
def skipWs : List Char → List Char
  | [] => []
  | c :: cs => if isJsonWs c then skipWs cs else c :: cs

/-- Value of a hexadecimal digit character. -/
def hexVal (c : Char) : Option Nat :=
  if '0' ≤ c ∧ c ≤ '9' then some (c.toNat - 48)
  else if 'a' ≤ c ∧ c ≤ 'f' then some (c.toNat - 87)
  else if 'A' ≤ c ∧ c ≤ 'F' then some (c.toNat - 55)
  else none

/-- The single-character string escapes accepted by `JSON.parse`. -/
def escapeOf : Char → Option Char
  | '"' => some '"'
  | '\\' => some '\\'
  | '/' => some '/'
  | 'b' => some (Char.ofNat 8)
  | 'f' => some (Char.ofNat 12)
  | 'n' => some '\n'
  | 'r' => some '\r'
  | 't' => some '\t'
  | _ => none

/-- Parse the body of a JSON string after its opening quote, accumulating
characters in reverse.  Unescaped control characters are rejected, as by
`JSON.parse`; `\uXXXX` escapes of surrogate code points are outside the
modelled fragment. -/
def parseStringBody : List Char → List Char → Option (String × List Char)
  | [], _ => none
  | '"' :: rest, _acc => some (String.mk _acc.reverse, rest)
  | '\\' :: 'u' :: a :: b :: c :: d :: rest, acc =>
    (match hexVal a, hexVal b, hexVal c, hexVal d with
     | some ha, some hb, some hc, some hd =>
       let code := ((ha * 16 + hb) * 16 + hc) * 16 + hd
       if code < 55296 ∨ 57343 < code then
         parseStringBody rest (Char.ofNat code :: acc)
       else none
     | _, _, _, _ => none)
  | '\\' :: e :: rest, acc =>
    (match escapeOf e with
     | some c => parseStringBody rest (c :: acc)
     | none => none)
  | c :: rest, acc =>
    if c.toNat < 32 then none else parseStringBody rest (c :: acc)

/-- Numeric value of a digit sequence. -/
def digitsVal (ds : List Char) : Nat :=
  ds.foldl (fun acc c => acc * 10 + (c.toNat - 48)) 0

/-- Parse a JSON integer's digit run; leading zeros are rejected, as by
`JSON.parse`. -/
def parseDigits (cs : List Char) : Option (Nat × List Char) :=
  let ds := cs.takeWhile fun c => c.isDigit
  if ds.isEmpty then none
  else if 1 < ds.length ∧ ds.headD '0' = '0' then none
  else some (digitsVal ds, cs.dropWhile fun c => c.isDigit)

/-- Parser mode: a plain value, the elements of an array after `[`, or the
fields of an object after `\x7b` (accumulators carry what was already
parsed; object fields are accumulated with JavaScript object-assignment
semantics). -/
inductive PMode where
  | value
  | arrElems (acc : List Json)
  | objFields (acc : List (String × Json))

/-- Fuel-driven recursive-descent JSON parser (`JSON.parse` on the modelled
fragment). -/
def parseJ : Nat → PMode → List Char → Option (Json × List Char)
  | 0, _, _ => none
  | Nat.succ fuel, PMode.value, cs =>
    (match skipWs cs with
     | '\x7b' :: rest =>
       (match skipWs rest with
        | '\x7d' :: r2 => some (Json.obj [], r2)
        | r2 => parseJ fuel (PMode.objFields []) r2)
     | '[' :: rest =>
       (match skipWs rest with
        | ']' :: r2 => some (Json.arr [], r2)
        | r2 => parseJ fuel (PMode.arrElems []) r2)
     | '"' :: rest =>
       (parseStringBody rest []).map fun sr => (Json.str sr.1, sr.2)
     | 't' :: 'r' :: 'u' :: 'e' :: rest => some (Json.bool true, rest)
     | 'f' :: 'a' :: 'l' :: 's' :: 'e' :: rest => some (Json.bool false, rest)
     | 'n' :: 'u' :: 'l' :: 'l' :: rest => some (Json.null, rest)
     | '-' :: rest =>
       (parseDigits rest).map fun nr => (Json.num (-(nr.1 : Int)), nr.2)
     | rest =>
       (parseDigits rest).map fun nr => (Json.num (nr.1 : Int), nr.2))
  | Nat.succ fuel, PMode.arrElems acc, cs =>
    (match parseJ fuel PMode.value cs with
     | some (v, r1) =>
       (match skipWs r1 with
        | ',' :: r2 => parseJ fuel (PMode.arrElems (acc ++ [v])) r2
        | ']' :: r2 => some (Json.arr (acc ++ [v]), r2)
        | _ => none)
     | none => none)
  | Nat.succ fuel, PMode.objFields acc, cs =>
    (match skipWs cs with
     | '"' :: rest =>
       (match parseStringBody rest [] with
        | some (key, r1) =>
          (match skipWs r1 with
           | ':' :: r2 =>
             (match parseJ fuel PMode.value r2 with
              | some (v, r3) =>
                (match skipWs r3 with
                 | ',' :: r4 => parseJ fuel (PMode.objFields (jsInsert acc key v)) r4
                 | '\x7d' :: r4 => some (Json.obj (jsInsert acc key v), r4)
                 | _ => none)
              | none => none)
           | _ => none)
        | none => none)
     | _ => none)

/-- The parse-error message.  The text `err.message` carries at line 102 of
the proxy is engine specific; it is abstracted to this fixed string. -/
def jsonParseErrorMsg : String := "Unexpected token in JSON"

/-- `JSON.parse` on the modelled fragment: a single value with optional
surrounding whitespace. -/
def jsonParse (body : String) : Except String Json :=
  match parseJ (2 * body.length + 4) PMode.value body.data with
  | some (v, rest) =>
    if skipWs rest = [] then Except.ok v else Except.error jsonParseErrorMsg
  | none => Except.error jsonParseErrorMsg

/-!
The per-request body handler of the proxy (`startProxy`, lines 57-104 of the
proxy module) and the upstream-error responder (`proxyRequestWithBody`,
lines 176-180).  The handler is parameterized by `rf : String → Decision`,
standing for `prompt => route(prompt, { tierModels })` — the extraction of a
feature vector from a concrete prompt string is the regular-expression layer
abstracted above, and no claim about the proxy inspects the routed branch's
decision values.
-/

/-- The auto-routing sentinel test (`proxy.js`, lines 63-65); strict string
equality, so any non-string `model` is not a sentinel. -/
def isAutoRoute : Option Json → Bool
  | some (Json.str s) =>
    s == "auto" || s == "litellm/auto" || s == "litellm-clawrouter/auto"
  | _ => false

/-- The summary passed to the injectable `onRouted` callback
(`proxy.js`, lines 81-88). -/
structure RoutedEvent where
  originalModel : Option Json
  routedModel : Option String
  tier : Tier
  confidence : Confidence
  savings : ℚ
  promptPreview : String

/-- The observable outcome of handling one completions body: forward a body
upstream (with the routing event that was reported, if any), or answer 500
with a JSON error body (`proxy.js`, lines 99-103). -/
inductive Outcome where
  | forward (body : String) (routed : Option RoutedEvent)
  | respond500 (body : Json)

/-- `estimateSavings(decision.model)` as called at line 78 of the proxy,
with the source's default arguments spelled out; an `undefined` model hits
the unknown-model fallback of the cost table, exactly as the empty string
(absent from the table) does. -/
def savingsOfRouted : Option String → ℚ
  | some m => estimateSavings m ("anthropic/claude-opus-4") 1000 500
  | none => estimateSavings ("") ("anthropic/claude-opus-4") 1000 500

/-- The placeholder error message for the modelled TypeError raised when the
extracted prompt is `undefined` (engine-specific text abstracted). -/
def undefinedPromptMsg : String := "Cannot read properties of undefined"

/-- The auto-routed branch (`proxy.js`, lines 68-93): classify the prompt,
overwrite `model` with the decision's model, report the routing event, and
forward the re-serialized payload. -/
def routedForward (rf : String → Decision) (payload : Json) (prompt : String) :
    Outcome :=
  let decision := rf prompt
  let payload' :=
    match decision.model with
    | some m => payload.setField ("model") (Json.str m)
    | none => payload.removeField ("model")
  let event : RoutedEvent :=
    { originalModel := payload.getField ("model")
      routedModel := decision.model
      tier := decision.tier
      confidence := decision.confidence
      savings := savingsOfRouted decision.model
      promptPreview := prompt.take 100 }
  Outcome.forward (jsonStringify payload') (some event)

/-- The request-body handler of `startProxy` (`proxy.js`, lines 57-104):
parse the collected body; when the declared model is an auto sentinel and
`messages` is a non-empty array, extract the last message's content (a
string as-is, any other value `JSON.stringify`d, a missing content crashes
into the catch), classify, rewrite `model` and forward; otherwise forward
the re-serialized payload untouched.  A parse failure answers 500 with
`{error: message}`.  A non-empty string `messages` also reaches the crash
path, mirroring `payload.messages?.length > 0` on strings. -/
def handleCompletions (rf : String → Decision) (body : String) : Outcome :=
  match jsonParse body with
  | Except.error msg => Outcome.respond500 (Json.obj [("error", Json.str msg)])
  | Except.ok payload =>
    if isAutoRoute (payload.getField ("model")) then
      match payload.getField ("messages") with
      | some (Json.arr (m :: ms)) =>
        (match (m :: ms).getLast (List.cons_ne_nil m ms) |>.getField ("content") with
         | some (Json.str s) => routedForward rf payload s
         | some v => routedForward rf payload (jsonStringify v)
         | none => Outcome.respond500 (Json.obj [("error", Json.str undefinedPromptMsg)]))
      | some (Json.str s) =>
        if 0 < s.length then
          Outcome.respond500 (Json.obj [("error", Json.str undefinedPromptMsg)])
        else Outcome.forward (jsonStringify payload) none
      | _ => Outcome.forward (jsonStringify payload) none
    else Outcome.forward (jsonStringify payload) none

/-- The upstream-failure responder (`proxyRequestWithBody`'s error handler,
`proxy.js` lines 176-180): status 502 with `{error: "Bad gateway",
details: err.message}`. -/
def upstreamFailureResponse (errMsg : String) : Nat × Json :=
  (502, Json.obj [("error", Json.str ("Bad gateway")), ("details", Json.str errMsg)])

/-!
Concrete inputs used by witnesses and counterexamples.
-/

/-- Features of the prompt `"prove this step by step"`: reasoning patterns 1
(`prove`) and 2 (`step by step`) match, no other dimension matches, 5
whitespace tokens, no question mark. -/
def reasoningFeatures : PromptFeatures :=
  ⟨2, 0, 0, 0, 0, 0, 0, 0, 0, 0, 0, 0, 5, 0⟩

/-- Features of a one-token prompt (for example `"hello"`) matching no
pattern at all. -/
def plainFeatures : PromptFeatures :=
  ⟨0, 0, 0, 0, 0, 0, 0, 0, 0, 0, 0, 0, 1, 0⟩

/-- Features of a signal-free prompt of 501 whitespace-delimited tokens. -/
def longFeatures : PromptFeatures :=
  ⟨0, 0, 0, 0, 0, 0, 0, 0, 0, 0, 0, 0, 501, 0⟩

/-- A caller-supplied tier map that lacks the `REASONING` key (and two
others), as nothing in `route` forbids. -/
def incompleteTierModels : TierModelMap := fun t =>
  match t with
  | Tier.SIMPLE => some ("openai/gpt-4o-mini")
  | _ => none

/-- A concrete routing function to instantiate the handler on paths where
routing is never invoked. -/
def stubRoute : String → Decision := fun _ => route plainFeatures ⟨none⟩

/-- A completions body whose `model` is not an auto sentinel, formatted with
a space after the colon. -/
def nonSentinelBody : String := "\x7b\"model\": \"gpt-4o\"\x7d"

/-- The serialization `JSON.stringify` produces for the parsed
`nonSentinelBody` (no space). -/
def nonSentinelReserialized : String := "\x7b\"model\":\"gpt-4o\"\x7d"

/-- A malformed completions body (truncated JSON). -/
def malformedBody : String := "\x7b\"model\": "

/-- A completions body with an auto-sentinel model and an empty `messages`
list. -/
def sentinelNoMessagesBody : String := "\x7b\"model\":\"auto\",\"messages\":[]\x7d"

/-- The parse of `sentinelNoMessagesBody`. -/
def sentinelNoMessagesJson : Json :=
  Json.obj [("model", Json.str ("auto")), ("messages", Json.arr [])]

/-!
Helper lemmas.
-/

/-- Reading the `reasoning` entry of the score mapping. -/
theorem scoreOf_reasoning (p : PromptFeatures) :
    scoreOf (scoreDimensions p) Dim.reasoning = patternScore p.reasoningMatches 5 := rfl

/-- Reading the `code` entry of the score mapping. -/
theorem scoreOf_code (p : PromptFeatures) :
    scoreOf (scoreDimensions p) Dim.code = patternScore p.codeMatches 7 := rfl

/-- Reading the `simple` entry of the score mapping. -/
theorem scoreOf_simple (p : PromptFeatures) :
    scoreOf (scoreDimensions p) Dim.simple = patternScore p.simpleMatches 4 := rfl

/-- Reading the `multiStep` entry of the score mapping. -/
theorem scoreOf_multiStep (p : PromptFeatures) :
    scoreOf (scoreDimensions p) Dim.multiStep = patternScore p.multiStepMatches 3 := rfl

/-- Reading the `technical` entry of the score mapping. -/
theorem scoreOf_technical (p : PromptFeatures) :
    scoreOf (scoreDimensions p) Dim.technical = patternScore p.technicalMatches 4 := rfl

/-- Reading the `creative` entry of the score mapping. -/
theorem scoreOf_creative (p : PromptFeatures) :
    scoreOf (scoreDimensions p) Dim.creative = patternScore p.creativeMatches 2 := rfl

/-- Reading the `constraints` entry of the score mapping. -/
theorem scoreOf_constraints (p : PromptFeatures) :
    scoreOf (scoreDimensions p) Dim.constraints = patternScore p.constraintsMatches 3 := rfl

/-- Reading the `imperative` entry of the score mapping. -/
theorem scoreOf_imperative (p : PromptFeatures) :
    scoreOf (scoreDimensions p) Dim.imperative = patternScore p.imperativeMatches 2 := rfl

/-- Reading the `outputFormat` entry of the score mapping. -/
theorem scoreOf_outputFormat (p : PromptFeatures) :
    scoreOf (scoreDimensions p) Dim.outputFormat = patternScore p.outputFormatMatches 2 := rfl

/-- Reading the `domain` entry of the score mapping. -/
theorem scoreOf_domain (p : PromptFeatures) :
    scoreOf (scoreDimensions p) Dim.domain = patternScore p.domainMatches 2 := rfl

/-- Reading the `reference` entry of the score mapping. -/
theorem scoreOf_reference (p : PromptFeatures) :
    scoreOf (scoreDimensions p) Dim.reference = patternScore p.referenceMatches 2 := rfl

/-- Reading the `negation` entry of the score mapping. -/
theorem scoreOf_negation (p : PromptFeatures) :
    scoreOf (scoreDimensions p) Dim.negation = patternScore p.negationMatches 2 := rfl

/-- Reading the `tokenCount` entry of the score mapping. -/
theorem scoreOf_tokenCount (p : PromptFeatures) :
    scoreOf (scoreDimensions p) Dim.tokenCount = tokenCountScore p.tokenCount := rfl

/-- Reading the `questionComplexity` entry of the score mapping. -/
theorem scoreOf_questionComplexity (p : PromptFeatures) :
    scoreOf (scoreDimensions p) Dim.questionComplexity
      = questionComplexityScore p.questionMarks := rfl

/-- The weighted sum at the signal-free one-token features: only the
`tokenCount` dimension contributes, `0.2 × 0.08 = 2/125`. -/
theorem plain_weightedSum : weightedSumOf (scoreDimensions plainFeatures) = 2/125 := by
  simp only [weightedSumOf, WEIGHTS, List.foldl_cons, List.foldl_nil,
    scoreOf_reasoning, scoreOf_code, scoreOf_simple, scoreOf_multiStep,
    scoreOf_technical, scoreOf_tokenCount, scoreOf_creative,
    scoreOf_questionComplexity, scoreOf_constraints, scoreOf_imperative,
    scoreOf_outputFormat, scoreOf_domain, scoreOf_reference, scoreOf_negation]
  norm_num [plainFeatures, patternScore, tokenCountScore, questionComplexityScore, min_def]

/-- The SIMPLE-branch condition of `route` holds at the signal-free
one-token features. -/
theorem plain_simple_cond :
    weightedSumOf (scoreDimensions plainFeatures) < 1/5
      ∧ ¬(scoreOf (scoreDimensions plainFeatures) Dim.code > 3/10
          ∨ scoreOf (scoreDimensions plainFeatures) Dim.technical > 3/10)
      ∧ ¬(scoreOf (scoreDimensions plainFeatures) Dim.imperative > 3/10
          ∧ (scoreOf (scoreDimensions plainFeatures) Dim.code > 1/10
             ∨ scoreOf (scoreDimensions plainFeatures) Dim.technical > 1/10)) := by
  refine ⟨?_, ?_, ?_⟩
  · rw [plain_weightedSum]
    norm_num
  · rw [scoreOf_code plainFeatures, scoreOf_technical plainFeatures]
    norm_num [plainFeatures, patternScore, min_def]
  · rw [scoreOf_imperative plainFeatures, scoreOf_code plainFeatures,
      scoreOf_technical plainFeatures]
    norm_num [plainFeatures, patternScore, min_def]

/-- A left fold accumulating sums equals the sum of the mapped list. -/
theorem foldl_add_map_sum {α : Type} (f : α → ℚ) (a : ℚ) (l : List α) :
    l.foldl (fun acc x => acc + f x) a = a + (l.map f).sum := by
  induction l generalizing a with
  | nil => simp
  | cons x xs ih => simp only [List.foldl_cons, ih, List.map_cons, List.sum_cons]; ring

/-- Pattern-based scores lie in `[0, 1]`. -/
theorem patternScore_bounds (m t : Nat) :
    0 ≤ patternScore m t ∧ patternScore m t ≤ 1 := by
  unfold patternScore
  exact ⟨le_min (by positivity) (by norm_num), min_le_right _ _⟩

/-- Token-count scores lie in `[0, 1]`. -/
theorem tokenCountScore_bounds (n : Nat) :
    0 ≤ tokenCountScore n ∧ tokenCountScore n ≤ 1 := by
  unfold tokenCountScore
  split_ifs with h1 h2
  · constructor <;> norm_num
  · constructor <;> norm_num
  · have h50 : (50 : ℚ) ≤ (n : ℚ) := by exact_mod_cast Nat.le_of_not_lt h1
    have h500 : (n : ℚ) ≤ 500 := by exact_mod_cast Nat.le_of_not_lt h2
    constructor <;> linarith

/-- Question-complexity scores lie in `[0, 1]`. -/
theorem questionComplexityScore_bounds (q : Nat) :
    0 ≤ questionComplexityScore q ∧ questionComplexityScore q ≤ 1 := by
  unfold questionComplexityScore
  exact ⟨le_min (by positivity) (by norm_num), min_le_right _ _⟩

/-- A `true` auto-sentinel test means the `model` field holds one of the
three sentinel strings. -/
theorem isAutoRoute_spellings (m : Option Json) (h : isAutoRoute m = true) :
    ∃ s, m = some (Json.str s) ∧
      (s = "auto" ∨ s = "litellm/auto" ∨ s = "litellm-clawrouter/auto") := by
  cases m with
  | none => exact absurd h (by simp [isAutoRoute])
  | some j =>
    cases j with
    | null => exact absurd h (by simp [isAutoRoute])
    | bool b => exact absurd h (by simp [isAutoRoute])
    | num n => exact absurd h (by simp [isAutoRoute])
    | arr xs => exact absurd h (by simp [isAutoRoute])
    | obj fs => exact absurd h (by simp [isAutoRoute])
    | str s =>
      refine ⟨s, rfl, ?_⟩
      simp only [isAutoRoute, Bool.or_eq_true, beq_iff_eq] at h
      exact or_assoc.mp h

/-!
The claims.
-/

/-- C1: for every prompt, if at least 2 of the reasoning dimension's
detection patterns match, `route` returns exactly
`{tier: REASONING, model: tierModels.REASONING, confidence: 0.97,
method: "rules"}` together with the scores snapshot, independent of the
weighted sum and of every other dimension score. -/
theorem route_reasoning_override (p : PromptFeatures) (opts : RouteOptions)
    (h : 2 ≤ p.reasoningMatches) :
    route p opts =
      { tier := Tier.REASONING
        model := (opts.tierModels.getD DEFAULT_TIER_MODELS) Tier.REASONING
        confidence := Confidence.const (97/100)
        weightedScore := none
        method := Method.rules
        scores := scoreDimensions p } := by
  simp only [route]
  rw [if_pos h]

/-- Witness for C1 at the features of `"prove this step by step"`. -/
theorem route_reasoning_override_witness :
    2 ≤ reasoningFeatures.reasoningMatches ∧
    route reasoningFeatures ⟨none⟩ =
      { tier := Tier.REASONING
        model := some ("deepseek/deepseek-reasoner")
        confidence := Confidence.const (97/100)
        weightedScore := none
        method := Method.rules
        scores := scoreDimensions reasoningFeatures } :=
  ⟨by decide, (route_reasoning_override reasoningFeatures ⟨none⟩ (by decide)).trans rfl⟩

/-- C2: for every prompt with fewer than 2 reasoning-pattern matches,
`route` selects the tier by the exact precedence SIMPLE / REASONING /
MEDIUM / COMPLEX stated in the spec, with method `"weighted"` and
`weightedScore` populated. -/
theorem route_weighted_precedence (p : PromptFeatures) (opts : RouteOptions)
    (h : p.reasoningMatches < 2) :
    route p opts =
      { tier :=
          if weightedSumOf (scoreDimensions p) < 1/5
              ∧ ¬(scoreOf (scoreDimensions p) Dim.code > 3/10
                  ∨ scoreOf (scoreDimensions p) Dim.technical > 3/10)
              ∧ ¬(scoreOf (scoreDimensions p) Dim.imperative > 3/10
                  ∧ (scoreOf (scoreDimensions p) Dim.code > 1/10
                     ∨ scoreOf (scoreDimensions p) Dim.technical > 1/10)) then
            Tier.SIMPLE
          else if scoreOf (scoreDimensions p) Dim.reasoning > 1/2
              ∨ 1 ≤ p.reasoningMatches then
            Tier.REASONING
          else if weightedSumOf (scoreDimensions p) < 2/5
              ∧ ¬(scoreOf (scoreDimensions p) Dim.imperative > 3/10
                  ∧ (scoreOf (scoreDimensions p) Dim.code > 1/10
                     ∨ scoreOf (scoreDimensions p) Dim.technical > 1/10)) then
            Tier.MEDIUM
          else
            Tier.COMPLEX
        model :=
          (opts.tierModels.getD DEFAULT_TIER_MODELS)
            (if weightedSumOf (scoreDimensions p) < 1/5
                ∧ ¬(scoreOf (scoreDimensions p) Dim.code > 3/10
                    ∨ scoreOf (scoreDimensions p) Dim.technical > 3/10)
                ∧ ¬(scoreOf (scoreDimensions p) Dim.imperative > 3/10
                    ∧ (scoreOf (scoreDimensions p) Dim.code > 1/10
                       ∨ scoreOf (scoreDimensions p) Dim.technical > 1/10)) then
              Tier.SIMPLE
            else if scoreOf (scoreDimensions p) Dim.reasoning > 1/2
                ∨ 1 ≤ p.reasoningMatches then
              Tier.REASONING
            else if weightedSumOf (scoreDimensions p) < 2/5
                ∧ ¬(scoreOf (scoreDimensions p) Dim.imperative > 3/10
                    ∧ (scoreOf (scoreDimensions p) Dim.code > 1/10
                       ∨ scoreOf (scoreDimensions p) Dim.technical > 1/10)) then
              Tier.MEDIUM
            else
              Tier.COMPLEX)
        confidence := Confidence.sigmoid (weightedSumOf (scoreDimensions p))
        weightedScore := some (weightedSumOf (scoreDimensions p))
        method := Method.weighted
        scores := scoreDimensions p } := by
  simp only [route]
  rw [if_neg (by omega)]

/-- Witness for C2 at the features of a signal-free one-token prompt, which
lands in the SIMPLE branch. -/
theorem route_weighted_precedence_witness :
    plainFeatures.reasoningMatches < 2 ∧
    route plainFeatures ⟨none⟩ =
      { tier := Tier.SIMPLE
        model := some ("gemini/gemini-2.0-flash")
        confidence := Confidence.sigmoid (2/125)
        weightedScore := some (2/125)
        method := Method.weighted
        scores := scoreDimensions plainFeatures } := by
  refine ⟨by decide, (route_weighted_precedence plainFeatures ⟨none⟩ (by decide)).trans ?_⟩
  rw [if_pos plain_simple_cond, plain_weightedSum]
  rfl

/-- C3 counterexample: `route` performs no validation of a caller-supplied
tier map, so a call with a map lacking the `REASONING` key yields
`decision.model = undefined` on a reasoning prompt — classification is
attempted and the model is not resolvable. -/
theorem route_model_undefined_cex :
    (route reasoningFeatures ⟨some incompleteTierModels⟩).model = none := rfl

/-- C3 (amended): whenever the tier map `route` actually uses — the
caller-supplied one if present, else the default — has all four tier keys
populated, `decision.model` is defined; `route` itself does not enforce
that requirement. -/
theorem route_model_resolvable (p : PromptFeatures) (opts : RouteOptions)
    (h : ∀ t : Tier, ((opts.tierModels.getD DEFAULT_TIER_MODELS) t).isSome = true) :
    ((route p opts).model).isSome = true := by
  simp only [route]
  split
  · exact h Tier.REASONING
  · exact h _

/-- Witness for C3's amended claim with the default tier map. -/
theorem route_model_resolvable_witness :
    (∀ t : Tier,
      (((⟨none⟩ : RouteOptions).tierModels.getD DEFAULT_TIER_MODELS) t).isSome = true) ∧
    ((route reasoningFeatures ⟨none⟩).model).isSome = true :=
  ⟨fun t => by cases t <;> rfl,
   route_model_resolvable reasoningFeatures ⟨none⟩ (fun t => by cases t <;> rfl)⟩

/-- C6: the `tokenCount` dimension score is `0.2` when the whitespace-split
token count is below 50, `0.9` when it is above 500, and
`0.5 + (n - 50) / 900` otherwise; in particular any prompt with more than
500 tokens scores exactly `0.9`. -/
theorem tokenCount_score_spec (p : PromptFeatures) :
    (scoreOf (scoreDimensions p) Dim.tokenCount =
      if p.tokenCount < 50 then 1/5
      else if 500 < p.tokenCount then 9/10
      else 1/2 + ((p.tokenCount : ℚ) - 50) / 900) ∧
    (500 < p.tokenCount → scoreOf (scoreDimensions p) Dim.tokenCount = 9/10) := by
  constructor
  · rfl
  · intro h
    rw [scoreOf_tokenCount]
    unfold tokenCountScore
    rw [if_neg (by omega), if_pos h]

/-- Witness for C6 at a 501-token prompt. -/
theorem tokenCount_score_spec_witness :
    500 < longFeatures.tokenCount ∧
    scoreOf (scoreDimensions longFeatures) Dim.tokenCount = 9/10 :=
  ⟨by decide, (tokenCount_score_spec longFeatures).2 (by decide)⟩

/-- C7: the 14 weights sum to 1.0 within 1e-9, and the weighted sum `route`
computes equals the sum over the weight table of score times weight
exactly (whenever the decision carries a `weightedScore`, it is that sum). -/
theorem weights_sum_spec :
    |((WEIGHTS.map Prod.snd).sum) - 1| ≤ 1/1000000000 ∧
    (∀ p : PromptFeatures,
      weightedSumOf (scoreDimensions p) =
        (WEIGHTS.map fun dw => scoreOf (scoreDimensions p) dw.1 * dw.2).sum) ∧
    (∀ (p : PromptFeatures) (opts : RouteOptions),
      (route p opts).weightedScore = none ∨
      (route p opts).weightedScore = some (weightedSumOf (scoreDimensions p))) := by
  refine ⟨?_, ?_, ?_⟩
  · have hsum : ((WEIGHTS.map Prod.snd).sum : ℚ) = 1 := by norm_num [WEIGHTS]
    rw [hsum]
    norm_num
  · intro p
    unfold weightedSumOf
    rw [foldl_add_map_sum]
    ring
  · intro p opts
    simp only [route]
    split
    · exact Or.inl rfl
    · exact Or.inr rfl

/-- C8: `estimateSavings` is 0 on self-comparison for any model and token
counts, is 0 whenever the baseline cost is 0, and is not clamped below 0 —
a routed model costlier than the baseline yields a negative result. -/
theorem estimateSavings_spec :
    (∀ (m : String) (i o : ℚ), estimateSavings m m i o = 0) ∧
    (∀ (r b : String) (i o : ℚ),
      estimateCost b i o = 0 → estimateSavings r b i o = 0) ∧
    (∀ (r b : String) (i o : ℚ), 0 < estimateCost b i o →
      estimateCost b i o < estimateCost r i o → estimateSavings r b i o < 0) := by
  refine ⟨?_, ?_, ?_⟩
  · intro m i o
    simp only [estimateSavings]
    split <;> simp
  · intro r b i o h
    simp only [estimateSavings, h]
    norm_num
  · intro r b i o hb hlt
    simp only [estimateSavings]
    rw [if_pos hb]
    exact div_neg_of_neg_of_pos (by linarith) hb

/-- Witness for C8: self-comparison on Opus is 0, a zero-token baseline
costs 0 and yields 0, and routing Opus against a Gemini Flash baseline
yields strictly negative savings. -/
theorem estimateSavings_spec_witness :
    estimateSavings ("anthropic/claude-opus-4") ("anthropic/claude-opus-4") 1000 500 = 0 ∧
    estimateCost ("anthropic/claude-opus-4") 0 0 = 0 ∧
    estimateSavings ("openai/gpt-4o") ("anthropic/claude-opus-4") 0 0 = 0 ∧
    0 < estimateCost ("gemini/gemini-2.0-flash") 1000 500 ∧
    estimateCost ("gemini/gemini-2.0-flash") 1000 500
      < estimateCost ("anthropic/claude-opus-4") 1000 500 ∧
    estimateSavings ("anthropic/claude-opus-4") ("gemini/gemini-2.0-flash") 1000 500 < 0 := by
  have h0 : estimateCost ("anthropic/claude-opus-4") 0 0 = 0 := by
    show (0 / 1000000 * 15 + 0 / 1000000 * 75 : ℚ) = 0
    norm_num
  have h1 : (0 : ℚ) < estimateCost ("gemini/gemini-2.0-flash") 1000 500 := by
    show (0 : ℚ) < 1000 / 1000000 * (1/10) + 500 / 1000000 * (2/5)
    norm_num
  have h2 : estimateCost ("gemini/gemini-2.0-flash") 1000 500
      < estimateCost ("anthropic/claude-opus-4") 1000 500 := by
    show (1000 / 1000000 * (1/10) + 500 / 1000000 * (2/5) : ℚ)
        < 1000 / 1000000 * 15 + 500 / 1000000 * 75
    norm_num
  exact ⟨estimateSavings_spec.1 ("anthropic/claude-opus-4") 1000 500, h0,
    estimateSavings_spec.2.1 ("openai/gpt-4o") ("anthropic/claude-opus-4") 0 0 h0, h1, h2,
    estimateSavings_spec.2.2 ("anthropic/claude-opus-4") ("gemini/gemini-2.0-flash")
      1000 500 h1 h2⟩

/-- C9: for every prompt the score mapping contains exactly the 14 fixed
dimension keys (in the source's insertion order), and every score lies in
the closed interval `[0, 1]`. -/
theorem scoreDimensions_keys_range (p : PromptFeatures) :
    ((scoreDimensions p).map Prod.fst =
      [Dim.reasoning, Dim.code, Dim.simple, Dim.multiStep, Dim.technical,
       Dim.creative, Dim.constraints, Dim.imperative, Dim.outputFormat,
       Dim.domain, Dim.reference, Dim.negation, Dim.tokenCount,
       Dim.questionComplexity]) ∧
    ∀ d : Dim, 0 ≤ scoreOf (scoreDimensions p) d ∧ scoreOf (scoreDimensions p) d ≤ 1 := by
  refine ⟨rfl, ?_⟩
  intro d
  cases d with
  | reasoning => exact patternScore_bounds p.reasoningMatches 5
  | code => exact patternScore_bounds p.codeMatches 7
  | simple => exact patternScore_bounds p.simpleMatches 4
  | multiStep => exact patternScore_bounds p.multiStepMatches 3
  | technical => exact patternScore_bounds p.technicalMatches 4
  | tokenCount => exact tokenCountScore_bounds p.tokenCount
  | creative => exact patternScore_bounds p.creativeMatches 2
  | questionComplexity => exact questionComplexityScore_bounds p.questionMarks
  | constraints => exact patternScore_bounds p.constraintsMatches 3
  | imperative => exact patternScore_bounds p.imperativeMatches 2
  | outputFormat => exact patternScore_bounds p.outputFormatMatches 2
  | domain => exact patternScore_bounds p.domainMatches 2
  | reference => exact patternScore_bounds p.referenceMatches 2
  | negation => exact patternScore_bounds p.negationMatches 2

/-- C4 counterexample: a non-sentinel completions body containing one space
of formatting parses, is re-serialized without the space, and is therefore
not forwarded byte-for-byte. -/
theorem proxy_forward_not_byte_exact_cex :
    jsonParse nonSentinelBody = Except.ok (Json.obj [("model", Json.str ("gpt-4o"))]) ∧
    handleCompletions stubRoute nonSentinelBody =
      Outcome.forward nonSentinelReserialized none ∧
    nonSentinelReserialized ≠ nonSentinelBody :=
  ⟨rfl, rfl, by decide⟩

/-- C4 (amended): a completions body that parses as JSON with a
non-sentinel model is forwarded with no routing event as the
`JSON.stringify` re-serialization of the parsed value — the same JSON value
with the model field unmodified, but not byte-for-byte identical in
general. -/
theorem proxy_forward_reserialized (rf : String → Decision) (body : String) (v : Json)
    (hparse : jsonParse body = Except.ok v)
    (hmodel : isAutoRoute (v.getField ("model")) = false) :
    handleCompletions rf body = Outcome.forward (jsonStringify v) none := by
  unfold handleCompletions
  rw [hparse]
  simp [hmodel]

/-- Witness for C4's amended claim on the concrete non-sentinel body. -/
theorem proxy_forward_reserialized_witness :
    jsonParse nonSentinelBody = Except.ok (Json.obj [("model", Json.str ("gpt-4o"))]) ∧
    isAutoRoute ((Json.obj [("model", Json.str ("gpt-4o"))]).getField ("model")) = false ∧
    handleCompletions stubRoute nonSentinelBody =
      Outcome.forward (jsonStringify (Json.obj [("model", Json.str ("gpt-4o"))])) none :=
  ⟨rfl, rfl,
   proxy_forward_reserialized stubRoute nonSentinelBody
     (Json.obj [("model", Json.str ("gpt-4o"))]) rfl rfl⟩

/-- C5: a completions body that fails to parse is answered 500 with a JSON
body whose `error` field holds the message, and an upstream connection
failure is answered 502 with a JSON body carrying `error` and `details`
fields. -/
theorem proxy_error_responses :
    (∀ (rf : String → Decision) (body msg : String),
      jsonParse body = Except.error msg →
      handleCompletions rf body =
        Outcome.respond500 (Json.obj [("error", Json.str msg)])) ∧
    (∀ errMsg : String,
      (upstreamFailureResponse errMsg).1 = 502 ∧
      (upstreamFailureResponse errMsg).2.getField ("error") = some (Json.str ("Bad gateway")) ∧
      (upstreamFailureResponse errMsg).2.getField ("details") = some (Json.str errMsg)) := by
  constructor
  · intro rf body msg h
    unfold handleCompletions
    rw [h]
  · intro errMsg
    exact ⟨rfl, rfl, rfl⟩

/-- Witness for C5 on a truncated body. -/
theorem proxy_error_responses_witness :
    jsonParse malformedBody = Except.error jsonParseErrorMsg ∧
    handleCompletions stubRoute malformedBody =
      Outcome.respond500 (Json.obj [("error", Json.str jsonParseErrorMsg)]) :=
  ⟨rfl, proxy_error_responses.1 stubRoute malformedBody jsonParseErrorMsg rfl⟩

/-- C10: a completions body whose model is an auto sentinel but whose
`messages` field is missing or an empty list is forwarded with no
classification and no routing event, re-serialized with the model field
still holding the sentinel value. -/
theorem proxy_sentinel_no_messages (rf : String → Decision) (body : String) (v : Json)
    (hparse : jsonParse body = Except.ok v)
    (hauto : isAutoRoute (v.getField ("model")) = true)
    (hmsg : v.getField ("messages") = none ∨ v.getField ("messages") = some (Json.arr [])) :
    handleCompletions rf body = Outcome.forward (jsonStringify v) none ∧
    ∃ s, v.getField ("model") = some (Json.str s) ∧
      (s = "auto" ∨ s = "litellm/auto" ∨ s = "litellm-clawrouter/auto") := by
  constructor
  · unfold handleCompletions
    rw [hparse]
    rcases hmsg with hmsg | hmsg <;> simp [hauto, hmsg]
  · exact isAutoRoute_spellings _ hauto

/-- Witness for C10 on a sentinel body with an empty messages list. -/
theorem proxy_sentinel_no_messages_witness :
    jsonParse sentinelNoMessagesBody = Except.ok sentinelNoMessagesJson ∧
    isAutoRoute (sentinelNoMessagesJson.getField ("model")) = true ∧
    (handleCompletions stubRoute sentinelNoMessagesBody =
       Outcome.forward (jsonStringify sentinelNoMessagesJson) none ∧
     ∃ s, sentinelNoMessagesJson.getField ("model") = some (Json.str s) ∧
       (s = "auto" ∨ s = "litellm/auto" ∨ s = "litellm-clawrouter/auto")) :=
  ⟨rfl, rfl,
   proxy_sentinel_no_messages stubRoute sentinelNoMessagesBody sentinelNoMessagesJson
     rfl rfl (Or.inr rfl)⟩

end ClawRouter
